import Mathlib

/-!
Shallow embedding of the booking-request subsystem of the Booksy marketplace
page (src/src/pages/Discover.tsx): the service-listing query composition
(queryFn of the services useQuery), the booking guard and insertion
(handleBookService and the createBooking mutationFn), and the category/city
filter ViewState (handleCategoryClick).

Storage (supabase) is modelled as an explicit `Store` record; a store-level
error is modelled by a Bool flag on each operation that may fail — the two
listing fetches, the bookings read and the booking insert — since in the
source each such call returns a `{ data, error }` pair.  Timestamps are
Nat. All definitions are computable so that concrete runs evaluate by
`decide` / `rfl`.
-/

namespace Booksy

/-- a row of the `services` table, with the columns selected by the query
(id, title, description, price, category, city, provider_id) plus the
`is_active` column the query filters on. -/
structure Service where
  id : String
  title : String
  description : Option String
  price : Int
  category : String
  city : String
  provider_id : String
  is_active : Bool
deriving DecidableEq, Repr

/-- a row of the `profiles` table as selected: `id, full_name`. -/
structure Provider where
  id : String
  full_name : String
deriving DecidableEq, Repr

/-- booking status values used by the page: it creates `pending` and reads
`pending`/`accepted`; `rejected`/`completed` exist in stored data. -/
inductive BookingStatus
  | pending
  | accepted
  | rejected
  | completed
deriving DecidableEq, Repr

/-- a row of the `bookings` table as inserted by the page:
`service_id, customer_id, provider_id, status, booking_date`. -/
structure Booking where
  service_id : String
  customer_id : String
  provider_id : String
  status : BookingStatus
  booking_date : Nat
deriving DecidableEq, Repr

/-- the remote data store: the three tables the page touches. -/
structure Store where
  services : List Service
  profiles : List Provider
  bookings : List Booking
deriving DecidableEq, Repr

/-- the denormalized row produced by the listing query:
`{ ...service, provider: providersData?.find(...) }`. -/
structure ListingView where
  service : Service
  provider : Option Provider
deriving DecidableEq, Repr

/-- String.toLower, written as character-wise lowering over the character
list (the same mapping the library function performs) so that it reduces
definitionally. -/
def lower (s : String) : String := String.mk (s.data.map Char.toLower)

/-- supabase `.ilike(column, pattern)` as used here: the category names the
page passes contain no `%`/`_` wildcards, so ilike is case-insensitive
equality of the column value and the pattern. -/
def ilikeMatch (value pattern : String) : Bool :=
  lower value == lower pattern

/-- the row filter built by the query:
`.eq(is_active, true)`, then `.ilike(category, selectedCategory)` when a
category is selected, then `.eq(city, selectedCity)` when a city is
selected; an absent filter adds no condition. -/
def matchesFilter (cat city : Option String) (s : Service) : Bool :=
  s.is_active
    && (match cat with
        | none => true
        | some c => ilikeMatch s.category c)
    && (match city with
        | none => true
        | some c => s.city == c)

/-- the services fetch: rows of the `services` table passing the filter,
in table order. -/
def fetchServices (store : Store) (cat city : Option String) : List Service :=
  store.services.filter (matchesFilter cat city)

/-- `servicesData.map(service => service.provider_id)`: the id collection
handed to the batched provider lookup. -/
def providerIds (servicesData : List Service) : List String :=
  servicesData.map (fun s => s.provider_id)

/-- the `.in(id, providerIds)` provider fetch: profiles whose id occurs in
the supplied collection. -/
def fetchProviders (store : Store) (ids : List String) : List Provider :=
  store.profiles.filter (fun p => ids.contains p.id)

/-- `servicesData.map(service => ({ ...service, provider:
providersData?.find(p => p.id === service.provider_id) }))`. -/
def servicesWithProviders (servicesData : List Service)
    (providersData : List Provider) : List ListingView :=
  servicesData.map (fun s =>
    ⟨s, providersData.find? (fun p => p.id == s.provider_id)⟩)

/-- the queryFn of the services useQuery.  `servicesErr` / `providersErr`
model the respective fetch returning an error: the source `throw`s it, and
the surrounding `try/catch` catches every thrown error and returns `[]`.
When the service fetch yields no rows, no provider fetch happens and `[]`
is returned. -/
def queryFn (store : Store) (cat city : Option String)
    (servicesErr providersErr : Bool) : List ListingView :=
  if servicesErr then []
  else
    let servicesData := fetchServices store cat city
    if servicesData.length > 0 then
      if providersErr then []
      else
        servicesWithProviders servicesData
          (fetchProviders store (providerIds servicesData))
    else []

/-- bookings for the pair with status in {pending, accepted}:
`.eq(service_id, serviceId).eq(customer_id, user.id).in(status, [pending, accepted])`. -/
def fetchActiveBookings (store : Store) (serviceId customerId : String) :
    List Booking :=
  store.bookings.filter (fun b =>
    b.service_id == serviceId && b.customer_id == customerId
      && (b.status == BookingStatus.pending
          || b.status == BookingStatus.accepted))

/-- the record the mutation inserts: status `pending`, booking_date = now. -/
def mkBooking (serviceId customerId providerId : String) (now : Nat) :
    Booking :=
  ⟨serviceId, customerId, providerId, BookingStatus.pending, now⟩

/-- the createBooking mutationFn: throws when no user is authenticated,
otherwise attempts the insert — the source destructures `{ data, error }`
from it and does `if (error) throw error`, so a store-rejected insert
(modelled by `insertErr`) throws and nothing is inserted; on success the
pending booking is appended and the inserted row returned. -/
def createBooking (user : Option String) (serviceId providerId : String)
    (insertErr : Bool) (now : Nat) (store : Store) :
    Except String (Booking × Store) :=
  match user with
  | none => Except.error "User not authenticated"
  | some uid =>
      if insertErr then Except.error "insert failed"
      else
        let b := mkBooking serviceId uid providerId now
        Except.ok (b, { store with bookings := store.bookings ++ [b] })

/-- the outcome handleBookService reports (via toasts in the page). -/
inductive BookResult
  | unauthenticated
  | selfBooking
  | alreadyBooked
  | bookingFailed
  | booked (b : Booking)
deriving DecidableEq, Repr

/-- storage operations performed by a call, recorded so that "touches the
store" is observable in the embedding. -/
inductive StoreOp
  | readBookings (serviceId customerId : String)
  | insertBooking (b : Booking)
deriving DecidableEq, Repr

/-- handleBookService: rejects when no user, rejects when the user is the
supplied provider, then reads the pair's active bookings — the source
destructures only `data` from the read, discarding `error`, so a failed
read (modelled by `bookingsReadErr`) leaves `existingBookings` null and
the falsy null skips the duplicate rejection — and finally runs the
createBooking mutation, whose insert may itself be rejected by the store
(`insertErr`), in which case the thrown error reaches onError and no
booking results.  Returns the outcome, the resulting store and the
storage operations performed. -/
def handleBookService (user : Option String) (serviceId providerId : String)
    (bookingsReadErr insertErr : Bool) (now : Nat) (store : Store) :
    BookResult × Store × List StoreOp :=
  match user with
  | none => (BookResult.unauthenticated, store, [])
  | some uid =>
      if uid == providerId then (BookResult.selfBooking, store, [])
      else
        let existingBookings : Option (List Booking) :=
          if bookingsReadErr then none
          else some (fetchActiveBookings store serviceId uid)
        if (match existingBookings with
            | some l => decide (l.length > 0)
            | none => false) then
          (BookResult.alreadyBooked, store, [StoreOp.readBookings serviceId uid])
        else
          match createBooking (some uid) serviceId providerId insertErr now store with
          | Except.ok (b, store2) =>
              (BookResult.booked b, store2,
                [StoreOp.readBookings serviceId uid, StoreOp.insertBooking b])
          | Except.error _ =>
              (BookResult.bookingFailed, store,
                [StoreOp.readBookings serviceId uid])

/-- the filter selection state: `selectedCategory` and `selectedCity`. -/
structure ViewState where
  selectedCategory : Option String
  selectedCity : Option String
deriving DecidableEq, Repr

/-- handleCategoryClick: `setSelectedCategory(categoryName);
setSelectedCity(null)`. -/
def handleCategoryClick (categoryName : String) (vs : ViewState) : ViewState :=
  { vs with selectedCategory := some categoryName, selectedCity := none }

/-! Concrete fixtures used by witnesses and counterexamples. -/

/-- an active Cleaning service in Pune offered by provider P1. -/
def svc1 : Service :=
  ⟨"1", "Deep clean", some "full house", 500, "Cleaning", "Pune", "P1", true⟩

/-- a second active cleaning service by a provider with no profile row. -/
def svc2 : Service :=
  ⟨"2", "Office clean", none, 900, "cleaning", "Pune", "P2", true⟩

/-- two services sharing provider P1, for the distinctness question. -/
def svc3 : Service :=
  ⟨"3", "Window clean", none, 300, "Cleaning", "Pune", "P1", true⟩

/-- a store with two cleaning services and one matching profile. -/
def store1 : Store :=
  ⟨[svc1, svc2], [⟨"P1", "Asha"⟩], []⟩

/-- an empty store. -/
def emptyStore : Store := ⟨[], [], []⟩

/-- an existing pending booking of service s1 by customer C. -/
def pendingBooking : Booking := ⟨"s1", "C", "P", BookingStatus.pending, 0⟩

/-- a store holding only that pending booking. -/
def storeWithBooking : Store := ⟨[], [], [pendingBooking]⟩

example : (queryFn store1 (some "cleaning") none false false).length = 2 := by
  decide

example :
    ((queryFn store1 (some "cleaning") none false false).map
      (fun v => v.provider)) = [some ⟨"P1", "Asha"⟩, none] := by
  decide

/-! ## C8 — unauthenticated calls touch nothing -/

/-- C8: a call to handleBookService with an absent (null) user returns the
unauthenticated rejection, leaves the store unchanged and performs no
storage operation at all — no bookings read and no insertion. -/
theorem unauthenticated_no_store_ops (serviceId providerId : String)
    (readErr insertErr : Bool) (now : Nat) (store : Store) :
    handleBookService none serviceId providerId readErr insertErr now store
      = (BookResult.unauthenticated, store, []) := rfl

/-! ## C9 — selecting a category resets the city filter -/

/-- C9: from any starting ViewState, selecting category A and then
category B produces the same ViewState as selecting B directly from the
unfiltered state, and after any selection the category is the selected one
and the city filter is unset. -/
theorem categoryClick_reset (vs : ViewState) (a b : String) :
    handleCategoryClick b (handleCategoryClick a vs)
        = handleCategoryClick b ⟨none, none⟩
    ∧ (handleCategoryClick b vs).selectedCategory = some b
    ∧ (handleCategoryClick b vs).selectedCity = none :=
  ⟨rfl, rfl, rfl⟩

/-! ## C10 — a failed bookings read bypasses the duplicate guard -/

/-- C10: with an existing pending booking of service s1 by customer C in
the store, a handleBookService call for the same pair whose bookings read
fails does not reject: it inserts a second booking, after which the pair
has two active bookings instead of the rejected duplicate. -/
theorem failed_read_bypasses_guard :
    (handleBookService (some "C") "s1" "P" true false 7 storeWithBooking).1
        = BookResult.booked (mkBooking "s1" "C" "P" 7)
    ∧ (fetchActiveBookings storeWithBooking "s1" "C").length = 1
    ∧ (fetchActiveBookings
        (handleBookService (some "C") "s1" "P" true false 7 storeWithBooking).2.1
        "s1" "C").length = 2 := by
  exact ⟨rfl, rfl, rfl⟩

/-! ## C2 — self-booking is rejected, created bookings are never self -/

/-- C2: whenever the authenticated user equals the supplied providerId the
call returns the self-booking rejection, leaves the store unchanged and
performs no storage operation; and any booking a call does create has a
customer_id distinct from its provider_id. -/
theorem selfBooking_rejected (uid serviceId providerId : String)
    (readErr insertErr : Bool) (now : Nat) (store : Store) :
    handleBookService (some providerId) serviceId providerId readErr insertErr
        now store
        = (BookResult.selfBooking, store, [])
    ∧ ∀ b store2 ops,
        handleBookService (some uid) serviceId providerId readErr insertErr
            now store
            = (BookResult.booked b, store2, ops)
        → b.customer_id ≠ b.provider_id := by
  constructor
  · simp [handleBookService]
  · intro b store2 ops h
    by_cases huid : uid = providerId
    · subst huid
      simp [handleBookService] at h
    · have hbeq : (uid == providerId) = false := by
        simpa [beq_eq_false_iff_ne] using huid
      cases insertErr with
      | true =>
          cases readErr with
          | true => simp [handleBookService, hbeq, createBooking] at h
          | false =>
              by_cases hdup :
                  (fetchActiveBookings store serviceId uid).length > 0 <;>
                simp [handleBookService, hbeq, hdup, createBooking] at h
      | false =>
          cases readErr with
          | true =>
              simp [handleBookService, hbeq, createBooking] at h
              have hb := h.1
              subst hb
              simpa [mkBooking] using huid
          | false =>
              by_cases hdup :
                  (fetchActiveBookings store serviceId uid).length > 0
              · simp [handleBookService, hbeq, hdup, createBooking] at h
              · simp [handleBookService, hbeq, hdup, createBooking] at h
                have hb := h.1
                subst hb
                simpa [mkBooking] using huid

/-- witness for C2 at concrete inputs: the self-call is rejected with the
store untouched, and a concretely created booking has distinct customer
and provider. -/
theorem selfBooking_rejected_witness :
    handleBookService (some "P") "s1" "P" false false 5 emptyStore
        = (BookResult.selfBooking, emptyStore, [])
    ∧ (mkBooking "s1" "C" "P" 5).customer_id
        ≠ (mkBooking "s1" "C" "P" 5).provider_id := by
  refine ⟨(selfBooking_rejected "C" "s1" "P" false false 5 emptyStore).1, ?_⟩
  exact (selfBooking_rejected "C" "s1" "P" false false 5 emptyStore).2
    (mkBooking "s1" "C" "P" 5)
    ⟨[], [], [mkBooking "s1" "C" "P" 5]⟩
    [StoreOp.readBookings "s1" "C",
     StoreOp.insertBooking (mkBooking "s1" "C" "P" 5)]
    (by decide)

/-! ## C1 — duplicate prevention -/

/-- C1 counterexample: with an existing pending booking of service s1 by
customer C in the store, (a) a call for the same pair whose supplied
providerId equals the customer returns the self-booking rejection, not
AlreadyBooked; and (b) a call for the same pair whose bookings read fails
inserts a second booking rather than rejecting, so as stated — over every
call for the pair — the claim fails. -/
theorem alreadyBooked_counterexample :
    (handleBookService (some "C") "s1" "C" false false 5 storeWithBooking).1
        = BookResult.selfBooking
    ∧ (handleBookService
        (some "C") "s1" "P" true false 5 storeWithBooking).2.1.bookings
        = [pendingBooking, mkBooking "s1" "C" "P" 5] := by
  exact ⟨rfl, rfl⟩

/-- C1 amended: when the bookings read succeeds and the authenticated
customer differs from the supplied providerId, a call for a pair that
already has an active (pending or accepted) booking returns the
AlreadyBooked rejection, leaves the store unchanged and inserts nothing,
preserving the at-most-one-active-booking invariant for the pair. -/
theorem alreadyBooked_guard (uid serviceId providerId : String) (now : Nat)
    (store : Store) (insertErr : Bool) (hne : uid ≠ providerId)
    (hex : fetchActiveBookings store serviceId uid ≠ []) :
    handleBookService (some uid) serviceId providerId false insertErr now store
        = (BookResult.alreadyBooked, store,
           [StoreOp.readBookings serviceId uid]) := by
  have hbeq : (uid == providerId) = false := by
    simpa [beq_eq_false_iff_ne] using hne
  have hlen : (fetchActiveBookings store serviceId uid).length > 0 :=
    List.length_pos.mpr hex
  simp [handleBookService, hbeq, hlen]

/-- witness for C1 amended: the store holding the pending (s1, C) booking
rejects a fresh request by C for s1 with provider P. -/
theorem alreadyBooked_guard_witness :
    handleBookService (some "C") "s1" "P" false false 5 storeWithBooking
        = (BookResult.alreadyBooked, storeWithBooking,
           [StoreOp.readBookings "s1" "C"]) :=
  alreadyBooked_guard "C" "s1" "P" 5 storeWithBooking false (by decide)
    (by decide)

/-! ## C4 — an allowed request inserts and returns a pending booking -/

/-- C4 counterexample: from the empty store the guard allows — customer C
is authenticated, distinct from provider P, and the successful bookings
read finds no active booking for the pair — yet a call whose insert the
store rejects (the mutationFn's `if (error) throw error` path) returns the
booking-failed outcome, inserts nothing and leaves the store unchanged,
so as stated — over every guard-allowed call — the claim that a pending
booking is inserted and returned fails. -/
theorem allowed_insert_counterexample :
    handleBookService (some "C") "s1" "P" false true 5 emptyStore
        = (BookResult.bookingFailed, emptyStore,
           [StoreOp.readBookings "s1" "C"]) := by
  exact rfl

/-- C4 amended: when the guard allows — user authenticated, customer
distinct from the supplied providerId, and the (successful) bookings read
finds no active booking for the pair — then, provided the store accepts
the insert, the call appends exactly one new booking with status pending
and booking_date equal to the current time, returns that booking, and the
operations performed are the read and that single insert; when the store
rejects the insert, the call instead reports the booking failure with
nothing inserted and the store unchanged. -/
theorem allowed_inserts_pending (uid serviceId providerId : String)
    (now : Nat) (store : Store) (hne : uid ≠ providerId)
    (hno : fetchActiveBookings store serviceId uid = []) :
    handleBookService (some uid) serviceId providerId false false now store
        = (BookResult.booked (mkBooking serviceId uid providerId now),
           { store with
              bookings := store.bookings ++ [mkBooking serviceId uid providerId now] },
           [StoreOp.readBookings serviceId uid,
            StoreOp.insertBooking (mkBooking serviceId uid providerId now)])
    ∧ (mkBooking serviceId uid providerId now).status = BookingStatus.pending
    ∧ (mkBooking serviceId uid providerId now).booking_date = now
    ∧ handleBookService (some uid) serviceId providerId false true now store
        = (BookResult.bookingFailed, store,
           [StoreOp.readBookings serviceId uid]) := by
  have hbeq : (uid == providerId) = false := by
    simpa [beq_eq_false_iff_ne] using hne
  refine ⟨?_, rfl, rfl, ?_⟩
  · simp [handleBookService, hbeq, hno, createBooking]
  · simp [handleBookService, hbeq, hno, createBooking]

/-- witness for C4 amended: from the empty store, customer C booking
service s1 of provider P obtains the pending booking stamped at time 5
when the insert succeeds, and the booking-failed outcome with the store
unchanged when the insert is rejected. -/
theorem allowed_inserts_pending_witness :
    handleBookService (some "C") "s1" "P" false false 5 emptyStore
        = (BookResult.booked (mkBooking "s1" "C" "P" 5),
           ⟨[], [], [mkBooking "s1" "C" "P" 5]⟩,
           [StoreOp.readBookings "s1" "C",
            StoreOp.insertBooking (mkBooking "s1" "C" "P" 5)])
    ∧ (mkBooking "s1" "C" "P" 5).status = BookingStatus.pending
    ∧ (mkBooking "s1" "C" "P" 5).booking_date = 5
    ∧ handleBookService (some "C") "s1" "P" false true 5 emptyStore
        = (BookResult.bookingFailed, emptyStore,
           [StoreOp.readBookings "s1" "C"]) :=
  allowed_inserts_pending "C" "s1" "P" 5 emptyStore (by decide) (by decide)

/-! ## C7 — the ids handed to the provider lookup are not deduplicated -/

/-- C7 counterexample: two fetched services sharing provider P1 make the
id collection handed to the batched lookup list P1 twice — it is the
per-service map, not a distinct set. -/
theorem providerIds_not_distinct :
    providerIds [svc1, svc3] = ["P1", "P1"]
    ∧ (providerIds [svc1, svc3]).count "P1" = 2
    ∧ ¬ (providerIds [svc1, svc3]).Nodup := by
  exact ⟨rfl, rfl, by decide⟩

/-- C7 amended: the collection passed to the batched provider lookup is
the per-service list of providerIds in fetch order — one entry per fetched
service, duplicates kept when services share a provider — and its members
are exactly the providerIds referenced by the fetched services. -/
theorem providerIds_members (servicesData : List Service) :
    (providerIds servicesData).length = servicesData.length
    ∧ ∀ x, x ∈ providerIds servicesData
        ↔ ∃ s ∈ servicesData, s.provider_id = x := by
  refine ⟨List.length_map _ _, fun x => ?_⟩
  simp [providerIds]

/-- witness for C7 amended: P1 is among the ids collected from a single
P1 service. -/
theorem providerIds_members_witness : "P1" ∈ providerIds [svc1] :=
  ((providerIds_members [svc1]).2 "P1").mpr ⟨svc1, by simp, rfl⟩

/-! ## C3 — fetch failures are not surfaced: the catch returns [] -/

/-- C3 counterexample: over store1, whose Cleaning services would match, a
failing service fetch and a failing provider fetch each make the query
return the empty list — exactly what a successful query over an empty
store returns — so a fetch failure is collapsed into an empty-result
success rather than surfaced, and the two outcomes are indistinguishable. -/
theorem queryFn_error_counterexample :
    queryFn store1 (some "Cleaning") none true false = []
    ∧ queryFn store1 (some "Cleaning") none false true = []
    ∧ queryFn store1 (some "Cleaning") none false false ≠ []
    ∧ queryFn emptyStore (some "Cleaning") none false false = [] := by
  exact ⟨rfl, by decide, by decide, rfl⟩

/-- C3 amended: whenever either the service fetch or the provider fetch
errors, the thrown error is caught and the query returns the empty list,
identical to the no-matching-rows success; no fetch-failed error reaches
the caller. -/
theorem queryFn_error_empty (store : Store) (cat city : Option String)
    (servicesErr providersErr : Bool)
    (h : servicesErr = true ∨ providersErr = true) :
    queryFn store cat city servicesErr providersErr = [] := by
  rcases h with h | h
  · subst h
    rfl
  · subst h
    cases servicesErr with
    | true => rfl
    | false => simp [queryFn]

/-- witness for C3 amended: a failing service fetch over store1 yields the
empty list. -/
theorem queryFn_error_empty_witness :
    queryFn store1 (some "Cleaning") none true false = [] :=
  queryFn_error_empty store1 (some "Cleaning") none true false (Or.inl rfl)

/-! ## C5 — filter correctness of the listing query -/

/-- C5: on a successful query, the services underlying the returned
listing rows are exactly the stored services that are active, whose
category case-insensitively equals the category filter when one is
present, and whose city exactly equals the city filter when one is
present; an absent filter imposes no condition.  Stated as equality of
lists, so the result is exact and in store order. -/
theorem listServices_filter_correct (store : Store) (cat city : Option String) :
    (queryFn store cat city false false).map ListingView.service
      = store.services.filter (fun s =>
          s.is_active
            && (match cat with
                | none => true
                | some c => ilikeMatch s.category c)
            && (match city with
                | none => true
                | some c => s.city == c)) := by
  show (queryFn store cat city false false).map ListingView.service
      = fetchServices store cat city
  by_cases h : (fetchServices store cat city).length > 0
  · simp [queryFn, h, servicesWithProviders, List.map_map, Function.comp_def]
  · simp only [queryFn, h, Bool.false_eq_true, if_false, ite_false,
      List.map_nil]
    exact (List.length_eq_zero.mp (Nat.eq_zero_of_not_pos h)).symm

/-! ## C6 — one row per service, provider resolved or undefined -/

/-- on a row produced for a service of the fetched batch, the provider
find comes up empty exactly when no profile in the store carries the
service's provider_id: the batched lookup includes that id, so a matching
profile is fetched whenever one exists. -/
theorem find_provider_none (store : Store) (l : List Service) (s : Service)
    (hs : s ∈ l) :
    ((fetchProviders store (providerIds l)).find?
        (fun p => p.id == s.provider_id) = none)
      ↔ ∀ p ∈ store.profiles, p.id ≠ s.provider_id := by
  rw [List.find?_eq_none]
  constructor
  · intro h p hp heq
    have hmem : p.id ∈ providerIds l := by
      rw [heq]
      exact List.mem_map.mpr ⟨s, hs, rfl⟩
    have hfilt : p ∈ fetchProviders store (providerIds l) :=
      List.mem_filter.mpr ⟨hp, List.elem_iff.mpr hmem⟩
    exact h p hfilt (by simpa [beq_iff_eq] using heq)
  · intro h p hp hbeq
    exact h p (List.mem_filter.mp hp).1 (by simpa [beq_iff_eq] using hbeq)

/-- C6: a successful query returns exactly one listing row per fetched
service, in fetch order: the row at position i carries the i-th fetched
service, and its provider field is none precisely when no stored profile
matches that service's provider_id — a missing provider never drops the
row or fails the composition. -/
theorem listing_provider_join (store : Store) (cat city : Option String) :
    (queryFn store cat city false false).length
        = (fetchServices store cat city).length
    ∧ ∀ i (h1 : i < (queryFn store cat city false false).length)
        (h2 : i < (fetchServices store cat city).length),
        ((queryFn store cat city false false).get ⟨i, h1⟩).service
            = (fetchServices store cat city).get ⟨i, h2⟩
        ∧ (((queryFn store cat city false false).get ⟨i, h1⟩).provider = none
            ↔ ∀ p ∈ store.profiles,
                p.id ≠ ((fetchServices store cat city).get ⟨i, h2⟩).provider_id) := by
  by_cases h : (fetchServices store cat city).length > 0
  · have hq : queryFn store cat city false false
        = servicesWithProviders (fetchServices store cat city)
            (fetchProviders store (providerIds (fetchServices store cat city))) := by
      simp [queryFn, h]
    constructor
    · rw [hq]
      exact List.length_map _ _
    · intro i h1 h2
      have hget : (queryFn store cat city false false).get ⟨i, h1⟩
          = ⟨(fetchServices store cat city).get ⟨i, h2⟩,
             (fetchProviders store
                (providerIds (fetchServices store cat city))).find?
               (fun p => p.id
                  == ((fetchServices store cat city).get ⟨i, h2⟩).provider_id)⟩ := by
        simp [hq, servicesWithProviders, List.getElem_map]
      rw [hget]
      exact ⟨rfl,
        find_provider_none store (fetchServices store cat city) _
          (List.get_mem _ i h2)⟩
  · have hnil : fetchServices store cat city = [] :=
      List.length_eq_zero.mp (Nat.eq_zero_of_not_pos h)
    have hq : queryFn store cat city false false = [] := by
      simp [queryFn, h]
    constructor
    · rw [hq, hnil]
      rfl
    · intro i h1 h2
      rw [hq] at h1
      exact absurd h1 (by simp)

/-- witness for C6 at a concrete store: the row built for the service
whose provider has no profile carries that service and an undefined
provider. -/
theorem listing_provider_join_witness :
    ((queryFn store1 (some "cleaning") none false false).get
        ⟨1, by decide⟩).provider = none :=
  ((listing_provider_join store1 (some "cleaning") none).2 1
      (by decide) (by decide)).2.mpr (by decide)

end Booksy

